import Mathlib

/-!
Verification of the article-analyzer ingestion/summarization pipeline and
retrieval index, shallowly embedded from `backend/summarizer_workflow.py`
and `backend/rag_service.py`.

Python strings are modelled as Lean strings; the handful of Python string
primitives the code uses (strip, lstrip with a character set, slicing,
split) are re-implemented structurally over the underlying character list
so that every definition evaluates by kernel reduction.  External
collaborators (the newspaper extractor, the HTTP fetch + HTML parse, the
Bedrock generation backend, the ChromaDB vector store) are parameters of
the embedded functions, per the spec's collaborator contracts.
-/

namespace ArticleAnalyzer

/-- Whitespace characters stripped by Python `str.strip` on the ASCII
inputs relevant here (space, tab, newline, carriage return). -/
def isPySpace (c : Char) : Bool :=
  c == ' ' || c == '\t' || c == '\n' || c == '\r'

/-- Python `str.strip` on a character list. -/
def stripChars (l : List Char) : List Char :=
  ((l.dropWhile isPySpace).reverse.dropWhile isPySpace).reverse

/-- Python `str.strip`. -/
def pyStrip (s : String) : String :=
  String.mk (stripChars s.data)

/-- Python `str.lstrip` with an explicit set of characters to remove. -/
def pyLstrip (cs : List Char) (s : String) : String :=
  String.mk (s.data.dropWhile (fun c => cs.contains c))

/-- Python slice `s[:n]`. -/
def pyTake (s : String) (n : Nat) : String :=
  String.mk (s.data.take n)

/-- Python slice `s[1:-1]`. -/
def pyInner (s : String) : String :=
  String.mk ((s.data.drop 1).dropLast)

/-- Python `str.split` with an explicit one-character separator: splits at
every occurrence and keeps empty pieces, like Python `s.split(sep)`. -/
def splitChar (c : Char) : List Char → List (List Char)
  | [] => [[]]
  | x :: xs =>
    if x == c then [] :: splitChar c xs
    else
      match splitChar c xs with
      | [] => [[x]]
      | y :: ys => (x :: y) :: ys

/-- Python `s.split(c)` on strings. -/
def pySplit (s : String) (c : Char) : List String :=
  (splitChar c s.data).map String.mk

/-- Python `s.startswith(c)` for a one-character prefix. -/
def startsWithChar (c : Char) (s : String) : Bool :=
  match s.data with
  | [] => false
  | x :: _ => x == c

/-- Python `s.endswith(c)` for a one-character suffix. -/
def endsWithChar (c : Char) (s : String) : Bool :=
  match s.data.getLast? with
  | none => false
  | some x => x == c

/-- Python `' '.join(l)`. -/
def pyJoin (sep : String) (l : List String) : String :=
  String.intercalate sep l

/-!  Key-point extraction (`SummarizerWorkflow._extract_key_points`).  -/

/-- The exact character set of the source's `lstrip` call in
`_extract_key_points`: the file's bytes spell the literal `'- â€¢*'`
(a mojibake rendering of `'- •*'`), i.e. the characters
`-`, space, `â`, `€`, `¢`, `*`.  A leading `•` is therefore not in
the set. -/
def bulletStripSet : List Char := ['-', ' ', 'â', '€', '¢', '*']

/-- One line of the heuristic fallback in `_extract_key_points`: strip the
line; keep it unless it is empty or starts with `[` or `]`; lstrip the
bullet set and strip again; remove surrounding double quotes; keep the
line if still nonempty. -/
def cleanKeyPointLine (line : String) : Option String :=
  let l := pyStrip line
  if l != "" && !(startsWithChar '[' l) && !(startsWithChar ']' l) then
    let m := pyStrip (pyLstrip bulletStripSet l)
    let m' := if startsWithChar '"' m && endsWithChar '"' m then pyInner m else m
    if m' != "" then some m' else none
  else none

/-- Heuristic fallback parse in `_extract_key_points`: strip the raw
response, split on newlines, clean each line, cap the result at 7. -/
def fallbackKeyPoints (raw : String) : List String :=
  ((pySplit (pyStrip raw) '\n').filterMap cleanKeyPointLine).take 7

/-- JSON whitespace, as skipped by Python `json.loads`. -/
def isJsonWs (c : Char) : Bool :=
  c == ' ' || c == '\t' || c == '\n' || c == '\r'

/-- Body of a JSON string literal after the opening quote: returns the
decoded characters and the rest of the input.  The single-character
escapes of RFC 8259 are supported; a `\u` escape is treated as a parse
failure (the strict tier then falls back, which is sound for every claim
settled here). -/
def parseJStringBody : List Char → List Char → Option (List Char × List Char)
  | [], _ => none
  | '"' :: rest, acc => some (acc.reverse, rest)
  | '\\' :: c :: rest, acc =>
    match c with
    | '"' => parseJStringBody rest ('"' :: acc)
    | '\\' => parseJStringBody rest ('\\' :: acc)
    | '/' => parseJStringBody rest ('/' :: acc)
    | 'n' => parseJStringBody rest ('\n' :: acc)
    | 't' => parseJStringBody rest ('\t' :: acc)
    | 'r' => parseJStringBody rest ('\r' :: acc)
    | 'b' => parseJStringBody rest ('\x08' :: acc)
    | 'f' => parseJStringBody rest ('\x0c' :: acc)
    | _ => none
  | c :: rest, acc => parseJStringBody rest (c :: acc)

/-- Elements of a JSON array of strings, after the opening bracket and any
whitespace; `acc` holds the already-parsed elements reversed.  Fuel-based
recursion on the input length. -/
def parseJArrayElems : Nat → List Char → List String → Option (List String)
  | 0, _, _ => none
  | fuel + 1, l, acc =>
    match l with
    | '"' :: body =>
      match parseJStringBody body [] with
      | none => none
      | some (cs, rest) =>
        match rest.dropWhile isJsonWs with
        | ',' :: rest2 =>
          parseJArrayElems fuel (rest2.dropWhile isJsonWs) (String.mk cs :: acc)
        | ']' :: tail =>
          if (tail.dropWhile isJsonWs).isEmpty then
            some (String.mk cs :: acc).reverse
          else none
        | _ => none
    | _ => none

/-- Strict parse tier of `_extract_key_points`: `json.loads` of the raw
response followed by the `isinstance(·, list)` check, modelled for
responses whose JSON document is an array of strings.  Any other document
is a strict-parse failure routed to the heuristic fallback. -/
def jsonLoadsStringList (raw : String) : Option (List String) :=
  match raw.data.dropWhile isJsonWs with
  | '[' :: rest =>
    match rest.dropWhile isJsonWs with
    | ']' :: tail =>
      if (tail.dropWhile isJsonWs).isEmpty then some [] else none
    | rest' => parseJArrayElems (rest'.length + 1) rest' []
  | _ => none

/-- Defensive parsing of `_extract_key_points`, parameterized by the strict
tier's outcome: a successful strict parse is returned as-is (the source
applies no cap on this path); on strict failure the heuristic fallback
runs, capped at 7. -/
def extractKeyPointsParse (strictRes : Option (List String)) (raw : String) :
    List String :=
  match strictRes with
  | some pts => pts
  | none => fallbackKeyPoints raw

/-- Key-point parsing of `_extract_key_points` on a raw backend response. -/
def extractKeyPoints (raw : String) : List String :=
  extractKeyPointsParse (jsonLoadsStringList raw) raw

/-- Modelled from the claim's wording, for comparison with the source's
fallback parser: discard empty lines and bracket-only lines, strip leading
bullet markers `-`, `•`, `*` and surrounding double quotes from each
retained line. -/
def claimCleanLine (line : String) : Option String :=
  let l := pyStrip line
  if l != "" && !(l.data.all (fun c => c == '[' || c == ']')) then
    let m := pyStrip (pyLstrip ['-', '•', '*'] l)
    let m' := if startsWithChar '"' m && endsWithChar '"' m then pyInner m else m
    if m' != "" then some m' else none
  else none

/-- The key-point fallback parser as the claim describes it. -/
def claimFallbackKeyPoints (raw : String) : List String :=
  ((pySplit (pyStrip raw) '\n').filterMap claimCleanLine).take 7

/-- Fallback line-cleaning as amended to the source's actual behavior: a
line is discarded when, after stripping, it is empty or starts with `[` or
`]` (not only bracket-only lines); the characters removed from the front
are exactly the source's literal set (`-`, space, `â`, `€`, `¢`, `*`, so
a leading `•` is kept); surrounding double quotes are removed; lines left
empty are dropped. -/
def amendedCleanLine (line : String) : Option String :=
  let l := pyStrip line
  if l == "" then none
  else if startsWithChar '[' l then none
  else if startsWithChar ']' l then none
  else
    let m := pyStrip (pyLstrip bulletStripSet l)
    let m' := if startsWithChar '"' m && endsWithChar '"' m then pyInner m else m
    if m' == "" then none else some m'

/-- The key-point fallback parser as the amended claim describes it. -/
def amendedFallbackKeyPoints (raw : String) : List String :=
  ((pySplit (pyStrip raw) '\n').filterMap amendedCleanLine).take 7

/-!  Pipeline state machine (`SummarizerWorkflow`).  -/

/-- Workflow state threaded through the LangGraph nodes of
`SummarizerWorkflow`. -/
structure WFState where
  url : String
  title : String
  content : String
  summary : String
  key_points : List String
  summary_type : String
  error : String
deriving DecidableEq

/-- Outcome of the newspaper primary tier: `article.text` and
`article.title` after `download()` + `parse()`; a raised exception is
`Except.error`. -/
structure NewsArticle where
  text : String
  title : String
deriving DecidableEq

/-- Parsed fallback page, abstracting the BeautifulSoup document after the
script/style/nav/footer/header elements are removed: the extracted text of
the first match of each content selector (in source order, `none` when the
selector matches no element), the stripped paragraph texts, the whole-page
text, the `<title>` tag text and the `og:title` meta content (`none` when
the tag or its content attribute is absent). -/
structure FallbackPage where
  selectorHits : List (Option String)
  paragraphs : List String
  fullText : String
  titleTag : Option String
  ogTitle : Option String
deriving DecidableEq

/-- Shared tail of `_extract_content`: cap the content at 100000 characters
(appending an explicit `...` truncation marker) and reject the result when
the stripped content is under 100 characters. -/
def finishExtract (title content : String) (usedFallback : Bool)
    (st : WFState) : WFState × Bool :=
  let content := if content.length > 100000 then pyTake content 100000 ++ "..." else content
  if (pyStrip content).length < 100 then
    ({ st with
        error := "Content extraction failed: Article content too short or extraction failed" },
      usedFallback)
  else
    ({ st with title := title, content := content }, usedFallback)

/-- Secondary extraction tier of `_extract_content` (requests +
BeautifulSoup), applied to an already-fetched page: first non-`none`
selector hit, else the joined nonempty paragraphs, else the whole-page
text; then per-line strip-and-join normalization; title from `<title>`
(default "Untitled Article") overridden by a nonempty `og:title`. -/
def fallbackExtract (page : FallbackPage) : String × String :=
  let c1 := (page.selectorHits.findSome? id).getD ""
  let c2 := if c1 == "" then pyJoin " " (page.paragraphs.filter (fun p => p != "")) else c1
  let c3 := if c2 == "" then page.fullText else c2
  let c4 := pyJoin " " (((pySplit c3 '\n').map pyStrip).filter (fun l => l != ""))
  let t1 := match page.titleTag with
    | some t => pyStrip t
    | none => "Untitled Article"
  let t2 := match page.ogTitle with
    | some t => if t != "" then t else t1
    | none => t1
  (t2, c4)

/-- Content-extraction node `_extract_content`, parameterized by the two
collaborator outcomes: the newspaper tier (download + parse) and the raw
fetch (requests.get + raise_for_status + HTML parse).  Returns the updated
state and whether the secondary (fallback) tier was attempted.  A raising
primary tier propagates to the node's outer `except`, which records the
error without attempting the fallback; the fallback runs only when the
primary returns with empty `text`. -/
def extractContent (primary : Except String NewsArticle)
    (fetch : Except String FallbackPage) (st : WFState) : WFState × Bool :=
  match primary with
  | .error e => ({ st with error := "Content extraction failed: " ++ e }, false)
  | .ok art =>
    if art.text == "" then
      match fetch with
      | .error e => ({ st with error := "Content extraction failed: " ++ e }, true)
      | .ok page =>
        let tc := fallbackExtract page
        finishExtract tc.1 tc.2 true st
    else
      finishExtract (if art.title == "" then "Untitled Article" else art.title)
        art.text false st

/-- Instruction templates of `_generate_summary`, keyed by summary type
with comprehensive as the default for unknown values. -/
def summaryPrompt (summaryType : String) : String :=
  if summaryType == "brief" then
    "Provide a brief 2-3 sentence summary of the main points."
  else if summaryType == "detailed" then
    "Provide a detailed summary with in-depth analysis and context."
  else
    "Provide a comprehensive summary that covers all major points and key insights."

/-- Summary-generation node `_generate_summary`, parameterized by the
generation backend's response to the composed prompt.  Returns the updated
state and whether the backend was invoked; the node no-ops without
invoking the backend when a prior error is recorded. -/
def generateSummary (backend : String → Except String String) (st : WFState) :
    WFState × Bool :=
  if st.error != "" then (st, false)
  else
    match backend (summaryPrompt st.summary_type) with
    | .ok s => ({ st with summary := s }, true)
    | .error e => ({ st with error := "Summary generation failed: " ++ e }, true)

/-- Key-point node `_extract_key_points`: skips (without invoking the
backend) on a prior error; on a backend failure it degrades to an empty
key-point list without recording an error; otherwise it parses the
response defensively. -/
def extractKeyPointsNode (backend : Except String String) (st : WFState) :
    WFState × Bool :=
  if st.error != "" then (st, false)
  else
    match backend with
    | .ok raw => ({ st with key_points := extractKeyPoints raw }, true)
    | .error _ => ({ st with key_points := [] }, true)

/-- Successful result of `SummarizerWorkflow.run`. -/
structure PipelineResult where
  title : String
  content : String
  summary : String
  key_points : List String
deriving DecidableEq

/-- Trace of one pipeline run: the caller-visible outcome plus whether each
generation-backend call site was reached and whether the secondary
extraction tier was attempted. -/
structure RunTrace where
  result : Except String PipelineResult
  summaryInvoked : Bool
  keyPointsInvoked : Bool
  usedFallback : Bool

/-- Initial state of `SummarizerWorkflow.run` for a URL and summary type. -/
def initState (url summaryType : String) : WFState :=
  { url := url, title := "", content := "", summary := "", key_points := [],
    summary_type := summaryType, error := "" }

/-- The compiled workflow of `SummarizerWorkflow.run`: extract_content →
generate_summary → extract_key_points, after which a recorded error is
surfaced as a raised failure and otherwise the final fields are returned. -/
def runPipeline (primary : Except String NewsArticle)
    (fetch : Except String FallbackPage)
    (genBackend : String → Except String String)
    (kpBackend : Except String String)
    (url summaryType : String) : RunTrace :=
  let e1 := extractContent primary fetch (initState url summaryType)
  let e2 := generateSummary genBackend e1.1
  let e3 := extractKeyPointsNode kpBackend e2.1
  if e3.1.error != "" then
    { result := .error e3.1.error, summaryInvoked := e2.2,
      keyPointsInvoked := e3.2, usedFallback := e1.2 }
  else
    let res : PipelineResult :=
      { title := e3.1.title, content := e3.1.content,
        summary := e3.1.summary, key_points := e3.1.key_points }
    { result := .ok res, summaryInvoked := e2.2,
      keyPointsInvoked := e3.2, usedFallback := e1.2 }

/-!  Retrieval index (`RAGService`).  -/

/-- Banker's rounding (round-half-to-even) of a rational, modelling
Python's built-in `round` at integer granularity. -/
def bankerRound (x : ℚ) : ℤ :=
  let f := ⌊x⌋
  let r := x - (f : ℚ)
  if r < 1/2 then f
  else if 1/2 < r then f + 1
  else if f % 2 = 0 then f else f + 1

/-- Python `round(x, 3)` on a rational. -/
def pyRound3 (x : ℚ) : ℚ :=
  (bankerRound (x * 1000) : ℚ) / 1000

/-- Metadata mapping stored with a document; `none` models an absent key
(read back through `.get` defaults at search time). -/
structure ChromaMeta where
  article_id : Option Int
  title : Option String
  url : Option String
  summary_type : Option String
  summary : Option String
deriving DecidableEq

/-- One stored document of the `articles` collection. -/
structure ChromaDoc where
  document : String
  embedding : List ℚ
  metadata : ChromaMeta
deriving DecidableEq

/-- The collection's contents: id/document pairs in insertion order. -/
abbrev Store := List (String × ChromaDoc)

/-- Modelled from the spec: the vector store collaborator's upsert
capability (spec section 6); writing an id that is already present fully
replaces that entry in place, otherwise the document is appended. -/
def storeUpsert (docId : String) (d : ChromaDoc) (s : Store) : Store :=
  if s.any (fun e => e.1 == docId) then
    s.map (fun e => if e.1 == docId then (docId, d) else e)
  else s ++ [(docId, d)]

/-- State of a `RAGService` instance after `initialize`: the collection
handle (with its server-side contents) and the embedding model, either
being `none` when initialization failed (the disabled state). -/
structure RAGState where
  collection : Option Store
  embedding_model : Option (String → List ℚ)

/-- Trace of the connection loop of `RAGService.initialize`: how many
connection attempts were made, the backoff delays slept between failed
attempts (in seconds), and whether a heartbeat succeeded. -/
structure ConnectTrace where
  attempts : Nat
  delays : List Nat
  ok : Bool
deriving DecidableEq

/-- Connection loop of `initialize` (`for attempt in range(max_retries)`),
parameterized by which attempts' client construction plus heartbeat
succeed: on failure with attempts remaining it sleeps `2 ** attempt`
seconds and retries; a failure of the last attempt re-raises.  Structural
recursion on the number of remaining loop iterations. -/
def connectLoop (succ : Nat → Bool) (attempt : Nat) : Nat → ConnectTrace
  | 0 => { attempts := attempt, delays := [], ok := false }
  | remaining + 1 =>
    if succ attempt then { attempts := attempt + 1, delays := [], ok := true }
    else if remaining == 0 then
      { attempts := attempt + 1, delays := [], ok := false }
    else
      let t := connectLoop succ (attempt + 1) remaining
      { attempts := t.attempts, delays := 2 ^ attempt :: t.delays, ok := t.ok }

/-- The `max_retries = 3` connection phase of `initialize`. -/
def initConnect (succ : Nat → Bool) : ConnectTrace :=
  connectLoop succ 0 3

/-- Initialization of `RAGService`: the connection loop, then collection
get-or-create and embedding-model load (each a collaborator outcome that
may fail); every failure is caught and leaves the service disabled
(`collection = none`, `embedding_model = none`) instead of raising. -/
def initializeRAG (succ : Nat → Bool) (collInit : Except String Store)
    (modelInit : Except String (String → List ℚ)) : RAGState :=
  if (initConnect succ).ok then
    match collInit, modelInit with
    | .ok s, .ok m => { collection := some s, embedding_model := some m }
    | _, _ => { collection := none, embedding_model := none }
  else { collection := none, embedding_model := none }

/-- Caller-supplied metadata dict of `add_article` (keys read through
`.get` with defaults). -/
structure AddMetadata where
  title : Option String
  url : Option String
  summary_type : Option String

/-- Document id of an article (`f"article_\x7barticle_id\x7d"`). -/
def docIdOf (articleId : Int) : String :=
  "article_" ++ toString articleId

/-- Document text written by `add_article`: title (default "Untitled"),
summary, and the first 5000 characters of the content. -/
def documentTextOf (content summary : String) (m : AddMetadata) : String :=
  "Title: " ++ m.title.getD "Untitled" ++ "\n\nSummary: " ++ summary ++
    "\n\nContent: " ++ pyTake content 5000

/-- Metadata mapping written by `add_article` (summary truncated to 1000
characters). -/
def storedMetaOf (articleId : Int) (summary : String) (m : AddMetadata) :
    ChromaMeta :=
  { article_id := some articleId, title := some (m.title.getD ""),
    url := some (m.url.getD ""), summary_type := some (m.summary_type.getD ""),
    summary := some (pyTake summary 1000) }

/-- `RAGService.add_article`: builds the document text, embeds it, writes
the document under the article's derived id.  Every failure — including
the disabled state, in which the embedding-model access raises — is
caught and reported as `false`; on success the updated store and `true`
are returned. -/
def addArticle (st : RAGState) (articleId : Int) (content summary : String)
    (m : AddMetadata) : Bool × RAGState :=
  match st.embedding_model with
  | none => (false, st)
  | some embed =>
    match st.collection with
    | none => (false, st)
    | some store =>
      let docText := documentTextOf content summary m
      let doc : ChromaDoc :=
        { document := docText, embedding := embed docText,
          metadata := storedMetaOf articleId summary m }
      (true, { st with collection := some (storeUpsert (docIdOf articleId) doc store) })

/-- One row of the vector store's query response: document, metadata and
distance. -/
structure QueryRow where
  document : String
  metadata : ChromaMeta
  distance : ℚ
deriving DecidableEq

/-- One search result returned by `RAGService.search`. -/
structure SearchResult where
  article_id : Option Int
  title : String
  url : String
  summary_excerpt : String
  similarity_score : ℚ
  summary_type : String
deriving DecidableEq

/-- Result-processing loop of `search`: convert each distance `d` to the
similarity `1 - d`, keep exactly the rows meeting the threshold, and
render each kept row (title defaulting to "Untitled", summary excerpt
`summary[:200] + "..."`, score rounded to 3 digits). -/
def processRows (rows : List QueryRow) (threshold : ℚ) : List SearchResult :=
  rows.filterMap fun row =>
    let s := 1 - row.distance
    if threshold ≤ s then
      some { article_id := row.metadata.article_id,
             title := row.metadata.title.getD "Untitled",
             url := row.metadata.url.getD "",
             summary_excerpt := pyTake (row.metadata.summary.getD "") 200 ++ "...",
             similarity_score := pyRound3 s,
             summary_type := row.metadata.summary_type.getD "" }
    else none

/-- `RAGService.search`, parameterized by the store's query outcome (the
rows returned for the embedded query, or a raised error).  An
uninitialized collection, a missing embedding model, and a failing query
call are all caught and reported as the empty result list. -/
def search (st : RAGState) (queryRes : Except String (List QueryRow))
    (threshold : ℚ) : List SearchResult :=
  match st.collection with
  | none => []
  | some _ =>
    match st.embedding_model with
    | none => []
    | some _ =>
      match queryRes with
      | .error _ => []
      | .ok rows => processRows rows threshold

/-- Caller-visible record of `get_article_by_id`. -/
structure ArticleRecord where
  article_id : Option Int
  title : Option String
  url : Option String
  document : String
  metadata : ChromaMeta
deriving DecidableEq

/-- `RAGService.get_article_by_id`, parameterized by the outcome of the
store's get call on the current store.  A disabled service and a raising
call yield `none`; an empty matched-document list yields `none`; a
nonempty document list with an empty metadata list indexes out of bounds
inside the `try`, also caught to `none`. -/
def getArticleById (st : RAGState)
    (getRes : Store → Except String (List String × List ChromaMeta)) :
    Option ArticleRecord :=
  match st.collection with
  | none => none
  | some store =>
    match getRes store with
    | .error _ => none
    | .ok (docs, metas) =>
      match docs, metas with
      | [], _ => none
      | _ :: _, [] => none
      | d :: _, m :: _ =>
        some { article_id := m.article_id, title := m.title, url := m.url,
               document := d, metadata := m }

/-- `RAGService.delete_article`, parameterized by the outcome of the
store's delete call: `false` when the service is disabled or the call
raises, `true` otherwise. -/
def deleteArticle (st : RAGState) (delRes : Store → Except String Store) :
    Bool × RAGState :=
  match st.collection with
  | none => (false, st)
  | some store =>
    match delRes store with
    | .error _ => (false, st)
    | .ok s' => (true, { st with collection := some s' })

/-- `RAGService.get_collection_stats`: the stored count, or a zero count
when the service is disabled or the count call raises. -/
def getCollectionStats (st : RAGState) (countRes : Store → Except String Nat) :
    Nat :=
  match st.collection with
  | none => 0
  | some store =>
    match countRes store with
    | .error _ => 0
    | .ok n => n

/-- Condition under which the claim C7 says the secondary extraction tier
is attempted: the primary tier fails or yields empty output. -/
def primaryEmptyOrFailed : Except String NewsArticle → Bool
  | .error _ => true
  | .ok a => a.text == ""

/-- A concrete parsed fallback page used in counterexamples. -/
def pageW : FallbackPage :=
  { selectorHits := [], paragraphs := [], fullText := "", titleTag := none,
    ogTitle := none }

/-- A stored summary of exactly 200 characters. -/
def sampleSummary200 : String := String.mk (List.replicate 200 'a')

/-- Stored metadata whose summary is 200 characters long. -/
def metaW : ChromaMeta :=
  { article_id := some 1, title := some "T", url := some "http://e",
    summary_type := some "comprehensive", summary := some sampleSummary200 }

/-- A store row at distance 1/2 (similarity 1/2, above the default
threshold). -/
def rowW : QueryRow := { document := "d", metadata := metaW, distance := 1 / 2 }

/-- A live (successfully initialized) service state. -/
def liveState : RAGState :=
  { collection := some [], embedding_model := some (fun _ => [1]) }

/-- The search result produced for `rowW`. -/
def resultW : SearchResult :=
  { article_id := some 1, title := "T", url := "http://e",
    summary_excerpt := pyTake sampleSummary200 200 ++ "...",
    similarity_score := pyRound3 (1 - (1 / 2 : ℚ)),
    summary_type := "comprehensive" }

/-- Caller metadata used in witnesses. -/
def addMetaW : AddMetadata :=
  { title := some "T", url := some "http://e",
    summary_type := some "comprehensive" }

/-!  Sanity evaluations of the key-point embedding on concrete inputs.  -/

example : extractKeyPoints "- Point one\n- Point two\n[ignored]\n" =
    ["Point one", "Point two"] := by decide

example : extractKeyPoints " [\"a\", \"b\"] " = ["a", "b"] := by decide

example :
    (extractKeyPoints
      "[\"a\", \"b\", \"c\", \"d\", \"e\", \"f\", \"g\", \"h\"]").length = 8 := by
  decide

/-!  Claim C2: size of the key-point list.  -/

/-- C2 counterexample: the claim says key-point extraction returns at most
7 strings regardless of the parse path, but on the strict parse path the
source applies no cap: a backend response that is a JSON array of 8
strings yields 8 key points. -/
theorem keyPoints_strict_path_uncapped_cex :
    ¬ (extractKeyPoints
        "[\"a\", \"b\", \"c\", \"d\", \"e\", \"f\", \"g\", \"h\"]").length ≤ 7 := by
  decide

/-- C2 amended: only the heuristic fallback path caps the key-point list
at 7 entries; a successful strict structured-list parse is returned
unmodified, whatever its length. -/
theorem keyPoints_cap_amended (raw : String) (pts : List String) :
    extractKeyPointsParse (some pts) raw = pts ∧
    (extractKeyPointsParse none raw).length ≤ 7 := by
  refine ⟨rfl, ?_⟩
  simp only [extractKeyPointsParse, fallbackKeyPoints]
  exact List.length_take_le 7 _

/-!  Claim C5: connection retry loop.  -/

/-- C5: the connection loop of `initialize` makes at most 3 attempts, the
backoff delays slept between consecutive failed attempts are strictly
increasing, and a successful heartbeat on any attempt ends the loop
immediately with success. -/
theorem initialize_retry_bounded_backoff (succ : Nat → Bool) :
    (initConnect succ).attempts ≤ 3 ∧
    List.Chain' (· < ·) (initConnect succ).delays ∧
    (∀ k, k < 3 → (∀ j, j < k → succ j = false) → succ k = true →
      (initConnect succ).attempts = k + 1 ∧ (initConnect succ).ok = true) := by
  refine ⟨?_, ?_, ?_⟩
  · cases h0 : succ 0 <;> cases h1 : succ 1 <;> cases h2 : succ 2 <;>
      simp [initConnect, connectLoop, h0, h1, h2]
  · cases h0 : succ 0 <;> cases h1 : succ 1 <;> cases h2 : succ 2 <;>
      simp [initConnect, connectLoop, h0, h1, h2]
  · intro k hk hprev hsucc
    interval_cases k
    · simp [initConnect, connectLoop, hsucc]
    · have h0 : succ 0 = false := hprev 0 (by omega)
      simp [initConnect, connectLoop, h0, hsucc]
    · have h0 : succ 0 = false := hprev 0 (by omega)
      have h1 : succ 1 = false := hprev 1 (by omega)
      simp [initConnect, connectLoop, h0, h1, hsucc]

/-- C5 witness: with a heartbeat that recovers on the second attempt, the
loop stops after exactly 2 attempts with success. -/
theorem initialize_retry_bounded_backoff_witness :
    (initConnect (fun n => n == 1)).attempts = 2 ∧
    (initConnect (fun n => n == 1)).ok = true :=
  (initialize_retry_bounded_backoff (fun n => n == 1)).2.2 1 (by omega)
    (fun j hj => by
      have : j = 0 := by omega
      subst this
      rfl)
    rfl

/-!  Claim C6: degraded behavior with an unreachable vector store.  -/

/-- C6: when all 3 connection attempts fail, `initialize` leaves the
service disabled, after which `add_article` returns `false` (leaving the
state unchanged) and `search` returns the empty list; both functions are
total, so no exception reaches the caller. -/
theorem disabled_index_add_and_search_degrade (succ : Nat → Bool)
    (collInit : Except String Store)
    (modelInit : Except String (String → List ℚ))
    (aid : Int) (content summary : String) (m : AddMetadata)
    (queryRes : Except String (List QueryRow)) (threshold : ℚ)
    (hfail : ∀ k, k < 3 → succ k = false) :
    (addArticle (initializeRAG succ collInit modelInit) aid content summary m).1
        = false ∧
    (addArticle (initializeRAG succ collInit modelInit) aid content summary m).2
        = initializeRAG succ collInit modelInit ∧
    search (initializeRAG succ collInit modelInit) queryRes threshold = [] := by
  have hok : (initConnect succ).ok = false := by
    have h0 : succ 0 = false := hfail 0 (by omega)
    have h1 : succ 1 = false := hfail 1 (by omega)
    have h2 : succ 2 = false := hfail 2 (by omega)
    simp [initConnect, connectLoop, h0, h1, h2]
  have hst : initializeRAG succ collInit modelInit =
      { collection := none, embedding_model := none } := by
    simp [initializeRAG, hok]
  rw [hst]
  exact ⟨rfl, rfl, rfl⟩

/-- C6 witness: a concrete always-failing heartbeat leaves add reporting
failure and search empty. -/
theorem disabled_index_add_and_search_degrade_witness :
    (addArticle (initializeRAG (fun _ => false) (.ok []) (.error "down")) 1
        "c" "s" { title := some "t", url := none, summary_type := none }).1
      = false ∧
    (addArticle (initializeRAG (fun _ => false) (.ok []) (.error "down")) 1
        "c" "s" { title := some "t", url := none, summary_type := none }).2
      = initializeRAG (fun _ => false) (.ok []) (.error "down") ∧
    search (initializeRAG (fun _ => false) (.ok []) (.error "down"))
        (.ok []) (3 / 10) = [] :=
  disabled_index_add_and_search_degrade (fun _ => false) (.ok []) (.error "down")
    1 "c" "s" { title := some "t", url := none, summary_type := none }
    (.ok []) (3 / 10) (fun _ _ => rfl)

/-!  Claim C7: when the secondary extraction tier runs.  -/

/-- C7 counterexample: with a failing (raising) primary tier the source
jumps to the node's outer exception handler and the secondary tier is not
attempted, contradicting the claim that a failing primary still leads to
the secondary tier. -/
theorem fallback_not_tried_on_primary_failure_cex :
    (extractContent (.error "download failed") (.ok pageW)
        (initState "http://e" "comprehensive")).2
      ≠ primaryEmptyOrFailed (.error "download failed") := by
  decide

/-- Helper: `finishExtract` never changes the fallback-attempted flag. -/
theorem finishExtract_snd (title content : String) (fb : Bool) (st : WFState) :
    (finishExtract title content fb st).2 = fb := by
  unfold finishExtract
  dsimp only
  split <;> split <;> rfl

/-- C7 amended: the secondary (requests + BeautifulSoup) tier is attempted
iff the primary newspaper tier returns without raising and with empty
text; a raising primary tier aborts the node without attempting the
secondary tier. -/
theorem fallback_tried_iff_primary_empty (primary : Except String NewsArticle)
    (fetch : Except String FallbackPage) (st : WFState) :
    (extractContent primary fetch st).2 = true ↔
      ∃ art, primary = Except.ok art ∧ art.text = "" := by
  cases primary with
  | error e => simp [extractContent]
  | ok art =>
    cases hempty : (art.text == "") with
    | true =>
      have htext : art.text = "" := by
        simpa using hempty
      cases fetch with
      | error e =>
        simp [extractContent, hempty]
        exact htext
      | ok page =>
        simp [extractContent, hempty, finishExtract_snd]
        exact htext
    | false =>
      have htext : art.text ≠ "" := by
        simpa using hempty
      simp [extractContent, hempty, finishExtract_snd]
      exact htext

/-!  Claim C10: totality of the auxiliary index operations.  -/

/-- C10: `get_article_by_id`, `delete_article` and `get_collection_stats`
are total toward their caller: in the disabled state they return `none`,
`false` and a zero count, and a raising store call on any live state is
caught with the same degraded returns; none of them propagates an
exception (they are total Lean functions into plain result types). -/
theorem index_aux_ops_total (st : RAGState)
    (getRes : Store → Except String (List String × List ChromaMeta))
    (delRes : Store → Except String Store)
    (countRes : Store → Except String Nat) :
    (st.collection = none →
      getArticleById st getRes = none ∧
      (deleteArticle st delRes).1 = false ∧
      getCollectionStats st countRes = 0) ∧
    (∀ store e, st.collection = some store → getRes store = .error e →
      getArticleById st getRes = none) ∧
    (∀ store e, st.collection = some store → delRes store = .error e →
      (deleteArticle st delRes).1 = false) ∧
    (∀ store e, st.collection = some store → countRes store = .error e →
      getCollectionStats st countRes = 0) := by
  refine ⟨?_, ?_, ?_, ?_⟩
  · intro h
    simp [getArticleById, deleteArticle, getCollectionStats, h]
  · intro store e hc he
    simp [getArticleById, hc, he]
  · intro store e hc he
    simp [deleteArticle, hc, he]
  · intro store e hc he
    simp [getCollectionStats, hc, he]

/-- C10 witness: the disabled state degrades all three operations. -/
theorem index_aux_ops_total_witness :
    getArticleById { collection := none, embedding_model := none }
        (fun _ => .error "down") = none ∧
    (deleteArticle { collection := none, embedding_model := none }
        (fun _ => .error "down")).1 = false ∧
    getCollectionStats { collection := none, embedding_model := none }
        (fun _ => .error "down") = 0 :=
  (index_aux_ops_total { collection := none, embedding_model := none }
    (fun _ => .error "down") (fun _ => .error "down")
    (fun _ => .error "down")).1 rfl

/-!  Claim C8: the heuristic fallback parser.  -/

/-- C8 counterexample: the claim says the fallback parser strips leading
`•` bullet markers, but the source's strip set is the mojibake literal
`'- â€¢*'`, which does not contain `•`; on the response `"• Point one"`
the source keeps the bullet while the claim's described parser strips
it. -/
theorem fallback_parser_claim_cex :
    extractKeyPoints "• Point one" ≠ claimFallbackKeyPoints "• Point one" := by
  decide

/-- Helper: the two conditional-return shapes used by the code-level and
amended line cleaners agree. -/
theorem option_if_ne (x : String) :
    (if x != "" then some x else none) =
      (if x == "" then none else some x) := by
  by_cases h : x = ""
  · subst h
    rfl
  · have hb : (x == "") = false := by
      simp [beq_eq_false_iff_ne, h]
    have hn : (x != "") = true := by
      simp [bne, hb]
    rw [if_pos hn, if_neg (by simp [hb])]

/-- Helper: the source's line cleaner and the amended description agree on
every line. -/
theorem cleanKeyPointLine_eq_amended (line : String) :
    cleanKeyPointLine line = amendedCleanLine line := by
  unfold cleanKeyPointLine amendedCleanLine
  by_cases h1 : pyStrip line = ""
  · simp [h1]
  · have hb1 : (pyStrip line == "") = false := by
      simp [beq_eq_false_iff_ne, h1]
    by_cases h2 : startsWithChar '[' (pyStrip line) = true
    · simp [hb1, h1, h2]
    · by_cases h3 : startsWithChar ']' (pyStrip line) = true
      · simp [hb1, h1, h2, h3]
      · simp only [Bool.not_eq_true] at h2 h3
        simp [hb1, h1, h2, h3, option_if_ne]

/-- C8 amended: the fallback parser discards empty lines and lines
starting with `[` or `]`, strips from the front exactly the characters of
the source's literal set (`-`, space, `â`, `€`, `¢`, `*` — a leading `•`
is kept), removes surrounding double quotes, and drops lines left empty;
on the claim's concrete scenario it still yields exactly
`["Point one", "Point two"]`. -/
theorem fallback_parser_amended :
    (∀ raw, fallbackKeyPoints raw = amendedFallbackKeyPoints raw) ∧
    extractKeyPoints "- Point one\n- Point two\n[ignored]\n" =
      ["Point one", "Point two"] := by
  constructor
  · intro raw
    simp only [fallbackKeyPoints, amendedFallbackKeyPoints]
    congr 1
    exact List.filterMap_congr (fun x _ => cleanKeyPointLine_eq_amended x)
  · decide

/-!  Claim C9: length of the summary excerpt.  -/

/-- Helper: `resultW` is among the results `search` returns for `rowW`. -/
theorem resultW_mem :
    resultW ∈ search liveState (.ok [rowW]) (3 / 10) := by
  show resultW ∈ processRows [rowW] (3 / 10)
  refine List.mem_filterMap.mpr ⟨rowW, by simp, ?_⟩
  have hcond : (3 / 10 : ℚ) ≤ 1 - rowW.distance := by
    show (3 / 10 : ℚ) ≤ 1 - (1 / 2 : ℚ)
    norm_num
  dsimp only
  rw [if_pos hcond]
  rfl

/-- Helper: the excerpt built for `rowW` has exactly 203 characters. -/
theorem resultW_excerpt_length : resultW.summary_excerpt.length = 203 := by
  have h1 : (pyTake sampleSummary200 200).length = 200 := by
    show ((List.replicate 200 'a').take 200).length = 200
    rw [List.length_take, List.length_replicate]
    omega
  have h2 : ("..." : String).length = 3 := rfl
  show (pyTake sampleSummary200 200 ++ "...").length = 203
  rw [String.length_append, h1, h2]

/-- C9 counterexample: the excerpt is `summary[:200] + "..."`, so with a
200-character stored summary the returned excerpt has 203 characters,
refuting the claimed 200-character bound. -/
theorem excerpt_exceeds_200_cex :
    ¬ ∀ r ∈ search liveState (.ok [rowW]) (3 / 10),
        r.summary_excerpt.length ≤ 200 := by
  intro hall
  have hr := hall resultW resultW_mem
  have hlen := resultW_excerpt_length
  omega

/-- Helper: a Python prefix slice is no longer than requested. -/
theorem pyTake_length_le (s : String) (n : Nat) : (pyTake s n).length ≤ n := by
  show (s.data.take n).length ≤ n
  exact List.length_take_le n s.data

/-- C9 amended: every result returned by `search` carries a summary
excerpt of at most 203 characters (a prefix of at most 200 characters of
the stored summary plus the constant three-character `...` marker). -/
theorem excerpt_le_203 (st : RAGState)
    (queryRes : Except String (List QueryRow)) (threshold : ℚ)
    (r : SearchResult) (hr : r ∈ search st queryRes threshold) :
    r.summary_excerpt.length ≤ 203 := by
  rcases st with ⟨coll, model⟩
  cases coll with
  | none => simp [search] at hr
  | some store =>
    cases model with
    | none => simp [search] at hr
    | some embed =>
      cases queryRes with
      | error e => simp [search] at hr
      | ok rows =>
        simp only [search] at hr
        rcases List.mem_filterMap.mp hr with ⟨row, _, hsome⟩
        dsimp only at hsome
        split at hsome
        · cases hsome
          rw [String.length_append]
          have h1 := pyTake_length_le (row.metadata.summary.getD "") 200
          have h2 : ("..." : String).length = 3 := rfl
          omega
        · cases hsome

/-- C9 amended witness: the 203-character excerpt of the concrete result
`resultW` satisfies the amended bound. -/
theorem excerpt_le_203_witness : resultW.summary_excerpt.length ≤ 203 :=
  excerpt_le_203 liveState (.ok [rowW]) (3 / 10) resultW resultW_mem

/-!  Claim C1: the 100-character quality gate protects the generation
backend.  -/

/-- Helper: an append with a nonempty left part is nonempty. -/
theorem append_ne_empty_of_left (a b : String) (ha : a ≠ "") :
    a ++ b ≠ "" := by
  intro h
  apply ha
  have hlen : a.length + b.length = 0 := by
    rw [← String.length_append, h]
    rfl
  have ha0 : a.length = 0 := by omega
  cases a with
  | mk l =>
    cases l with
    | nil => rfl
    | cons c cs =>
      change (c :: cs).length = 0 at ha0
      simp at ha0

/-- Helper: `finishExtract` either records the too-short error or keeps
the incoming error and stores content whose stripped length is at least
100. -/
theorem finishExtract_err_or_long (title content : String) (fb : Bool)
    (st : WFState) :
    (finishExtract title content fb st).1.error =
        "Content extraction failed: Article content too short or extraction failed" ∨
      ((finishExtract title content fb st).1.error = st.error ∧
        100 ≤ (pyStrip ((finishExtract title content fb st).1.content)).length) := by
  unfold finishExtract
  dsimp only
  generalize (if content.length > 100000 then pyTake content 100000 ++ "..." else content) = C
  split
  · left
    rfl
  · right
    exact ⟨rfl, Nat.le_of_not_lt (by assumption)⟩

/-- Helper: when the final stripped content of the extraction node is
under 100 characters, the node has recorded an error. -/
theorem extractContent_error_of_short (primary : Except String NewsArticle)
    (fetch : Except String FallbackPage) (u ty : String)
    (h : (pyStrip ((extractContent primary fetch
        (initState u ty)).1.content)).length < 100) :
    (extractContent primary fetch (initState u ty)).1.error ≠ "" := by
  cases primary with
  | error e =>
    show ("Content extraction failed: " ++ e) ≠ ""
    exact append_ne_empty_of_left _ _ (by decide)
  | ok art =>
    cases hb : (art.text == "") with
    | true =>
      cases fetch with
      | error e =>
        have heq : extractContent (.ok art) (.error e) (initState u ty)
            = ({ initState u ty with
                  error := "Content extraction failed: " ++ e }, true) := by
          simp [extractContent, hb]
        rw [heq]
        exact append_ne_empty_of_left _ _ (by decide)
      | ok page =>
        have heq : extractContent (.ok art) (.ok page) (initState u ty)
            = finishExtract (fallbackExtract page).1 (fallbackExtract page).2
                true (initState u ty) := by
          simp [extractContent, hb]
        rw [heq] at h ⊢
        rcases finishExtract_err_or_long (fallbackExtract page).1
            (fallbackExtract page).2 true (initState u ty) with herr | ⟨_, hlong⟩
        · rw [herr]
          decide
        · omega
    | false =>
      have heq : extractContent (.ok art) fetch (initState u ty)
          = finishExtract
              (if art.title == "" then "Untitled Article" else art.title)
              art.text false (initState u ty) := by
        simp [extractContent, hb]
      rw [heq] at h ⊢
      rcases finishExtract_err_or_long
          (if art.title == "" then "Untitled Article" else art.title)
          art.text false (initState u ty) with herr | ⟨_, hlong⟩
      · rw [herr]
        decide
      · omega

/-- C1: whenever the final extracted/stripped text is under 100
characters, the pipeline run surfaces a failure to the caller and neither
generation-backend call site (summary or key points) is reached. -/
theorem pipeline_short_text_fails_before_generation
    (primary : Except String NewsArticle) (fetch : Except String FallbackPage)
    (gen : String → Except String String) (kp : Except String String)
    (u ty : String)
    (h : (pyStrip ((extractContent primary fetch
        (initState u ty)).1.content)).length < 100) :
    (∃ e, (runPipeline primary fetch gen kp u ty).result = Except.error e) ∧
    (runPipeline primary fetch gen kp u ty).summaryInvoked = false ∧
    (runPipeline primary fetch gen kp u ty).keyPointsInvoked = false := by
  have herr := extractContent_error_of_short primary fetch u ty h
  have hbne : ((extractContent primary fetch (initState u ty)).1.error != "")
      = true := bne_iff_ne.mpr herr
  simp only [runPipeline, generateSummary, extractKeyPointsNode, hbne,
    if_true]
  refine ⟨⟨_, rfl⟩, ?_, ?_⟩ <;> trivial

/-- C1 witness: a failing primary tier and failing fetch leave empty
content, the run fails, and no generation call is made. -/
theorem pipeline_short_text_fails_before_generation_witness :
    ((pyStrip ((extractContent (Except.error "boom") (Except.error "x")
        (initState "http://e" "brief")).1.content)).length < 100) ∧
    ((∃ e, (runPipeline (Except.error "boom") (Except.error "x")
          (fun _ => Except.ok "s") (Except.ok "[]") "http://e" "brief").result
        = Except.error e) ∧
      (runPipeline (Except.error "boom") (Except.error "x")
          (fun _ => Except.ok "s") (Except.ok "[]") "http://e"
          "brief").summaryInvoked = false ∧
      (runPipeline (Except.error "boom") (Except.error "x")
          (fun _ => Except.ok "s") (Except.ok "[]") "http://e"
          "brief").keyPointsInvoked = false) :=
  ⟨by decide, pipeline_short_text_fails_before_generation _ _ _ _ _ _
    (by decide)⟩

/-!  Claim C3: threshold filtering and ordering of search results.  -/

/-- Helper: banker's rounding is bounded below by the floor. -/
theorem floor_le_bankerRound (x : ℚ) : ⌊x⌋ ≤ bankerRound x := by
  unfold bankerRound
  dsimp only
  split_ifs <;> omega

/-- Helper: banker's rounding is bounded above by the floor plus one. -/
theorem bankerRound_le_floor_add_one (x : ℚ) : bankerRound x ≤ ⌊x⌋ + 1 := by
  unfold bankerRound
  dsimp only
  split_ifs <;> omega

/-- Helper: banker's rounding is monotone. -/
theorem bankerRound_mono {x y : ℚ} (h : x ≤ y) :
    bankerRound x ≤ bankerRound y := by
  have hf : ⌊x⌋ ≤ ⌊y⌋ := Int.floor_le_floor h
  rcases eq_or_lt_of_le hf with heq | hlt
  · have hr : x - (⌊x⌋ : ℚ) ≤ y - (⌊y⌋ : ℚ) := by
      rw [← heq]
      linarith
    unfold bankerRound
    dsimp only
    rw [← heq]
    rw [← heq] at hr
    split_ifs <;> first | omega | (exfalso; linarith)
  · calc bankerRound x ≤ ⌊x⌋ + 1 := bankerRound_le_floor_add_one x
      _ ≤ ⌊y⌋ := by omega
      _ ≤ bankerRound y := floor_le_bankerRound y

/-- Helper: Python-style 3-digit rounding is monotone. -/
theorem pyRound3_mono {x y : ℚ} (h : x ≤ y) : pyRound3 x ≤ pyRound3 y := by
  unfold pyRound3
  have hb : bankerRound (x * 1000) ≤ bankerRound (y * 1000) :=
    bankerRound_mono (by linarith)
  have hb' : ((bankerRound (x * 1000) : ℚ)) ≤ (bankerRound (y * 1000) : ℚ) := by
    exact_mod_cast hb
  exact (div_le_div_iff_of_pos_right (by norm_num)).mpr hb'

/-- C3: every result `search` returns comes from a store row whose
computed similarity `1 - d` meets the threshold (the result's score being
that similarity rounded to 3 digits), and when the store's distances are
ascending the returned scores are monotonically non-increasing. -/
theorem search_threshold_and_order (st : RAGState) (store : Store)
    (embed : String → List ℚ) (rows : List QueryRow) (threshold : ℚ)
    (hc : st.collection = some store) (hm : st.embedding_model = some embed) :
    (∀ r ∈ search st (.ok rows) threshold, ∃ row ∈ rows,
        r.similarity_score = pyRound3 (1 - row.distance) ∧
        threshold ≤ 1 - row.distance) ∧
    (rows.Pairwise (fun a b => a.distance ≤ b.distance) →
      (search st (.ok rows) threshold).Pairwise
        (fun a b => b.similarity_score ≤ a.similarity_score)) := by
  have hsearch : search st (.ok rows) threshold = processRows rows threshold := by
    rcases st with ⟨coll, model⟩
    have h1 : coll = some store := hc
    have h2 : model = some embed := hm
    subst h1
    subst h2
    rfl
  rw [hsearch]
  constructor
  · intro r hr
    rcases List.mem_filterMap.mp hr with ⟨row, hrow, hsome⟩
    dsimp only at hsome
    split at hsome
    · cases hsome
      exact ⟨row, hrow, rfl, by assumption⟩
    · cases hsome
  · intro hsorted
    refine List.Pairwise.filterMap _ ?_ hsorted
    intro a a' hle b hb b' hb'
    rw [Option.mem_def] at hb hb'
    dsimp only at hb hb'
    split at hb
    · split at hb'
      · cases hb
        cases hb'
        exact pyRound3_mono (by linarith)
      · cases hb'
    · cases hb

/-- C3 witness: on a concrete live state and singleton row list the
returned scores are non-increasing. -/
theorem search_threshold_and_order_witness :
    (search liveState (.ok [rowW]) (3 / 10)).Pairwise
      (fun a b => b.similarity_score ≤ a.similarity_score) :=
  (search_threshold_and_order liveState [] (fun _ => [1]) [rowW] (3 / 10)
    rfl rfl).2 (List.pairwise_singleton _ _)

/-!  Claim C4: idempotent full replacement on re-add.  -/

/-- Helper: replacing matching entries in place preserves the number of
entries matching the id. -/
theorem countP_map_replace (docId : String) (d : ChromaDoc) (s : Store) :
    ((s.map (fun e => if e.1 == docId then (docId, d) else e)).countP
        (fun e => e.1 == docId))
      = s.countP (fun e => e.1 == docId) := by
  induction s with
  | nil => rfl
  | cons a t ih =>
    rw [List.map_cons, List.countP_cons, List.countP_cons, ih]
    cases h : (a.1 == docId) <;> simp [h]

/-- Helper: after an upsert the id is present. -/
theorem storeUpsert_any (docId : String) (d : ChromaDoc) (s : Store) :
    (storeUpsert docId d s).any (fun e => e.1 == docId) = true := by
  unfold storeUpsert
  split
  case isTrue h =>
    rcases List.any_eq_true.mp h with ⟨a, ha, hpa⟩
    refine List.any_eq_true.mpr ⟨(docId, d), ?_, by simp⟩
    refine List.mem_map.mpr ⟨a, ha, ?_⟩
    simp [hpa]
  case isFalse h =>
    refine List.any_eq_true.mpr ⟨(docId, d), ?_, by simp⟩
    simp

/-- Helper: after an upsert, every entry carrying the id is exactly the
upserted document. -/
theorem storeUpsert_key_entry (docId : String) (d : ChromaDoc) (s : Store) :
    ∀ e ∈ storeUpsert docId d s, e.1 = docId → e = (docId, d) := by
  unfold storeUpsert
  split
  case isTrue h =>
    intro e he hk
    rcases List.mem_map.mp he with ⟨a, ha, hae⟩
    subst hae
    by_cases hb : (a.1 == docId) = true
    · rw [if_pos hb]
    · rw [if_neg hb] at hk ⊢
      exact absurd hk (by simpa [beq_eq_false_iff_ne] using hb)
  case isFalse h =>
    intro e he hk
    have hf : s.any (fun e => e.1 == docId) = false := by
      cases hb : s.any (fun e => e.1 == docId)
      · rfl
      · exact absurd hb h
    rcases List.mem_append.mp he with he1 | he2
    · exfalso
      have hne := List.any_eq_false.mp hf e he1
      exact hne (by simp [hk])
    · exact List.mem_singleton.mp he2

/-- Helper: upsert on a store already containing the id is the in-place
replacement. -/
theorem storeUpsert_of_any (docId : String) (d : ChromaDoc) (s : Store)
    (h : s.any (fun e => e.1 == docId) = true) :
    storeUpsert docId d s = s.map (fun e => if e.1 == docId then (docId, d) else e) := by
  unfold storeUpsert
  rw [if_pos h]

/-- Helper: upserting the same document twice equals upserting it once. -/
theorem storeUpsert_idem (docId : String) (d : ChromaDoc) (s : Store) :
    storeUpsert docId d (storeUpsert docId d s) = storeUpsert docId d s := by
  rw [storeUpsert_of_any docId d (storeUpsert docId d s)
    (storeUpsert_any docId d s)]
  have hcong : ∀ e ∈ storeUpsert docId d s,
      (if e.1 == docId then (docId, d) else e) = (fun a => a) e := by
    intro e he
    by_cases hb : (e.1 == docId) = true
    · rw [if_pos hb]
      exact (storeUpsert_key_entry docId d s e he (by simpa using hb)).symm
    · rw [if_neg hb]
  rw [List.map_congr_left hcong, List.map_id']

/-- Helper: an upsert into a store holding the id at most once leaves the
id held exactly once. -/
theorem storeUpsert_countP_one (docId : String) (d : ChromaDoc) (s : Store)
    (h : s.countP (fun e => e.1 == docId) ≤ 1) :
    (storeUpsert docId d s).countP (fun e => e.1 == docId) = 1 := by
  unfold storeUpsert
  split
  case isTrue hany =>
    rw [countP_map_replace]
    have hpos : 0 < s.countP (fun e => e.1 == docId) :=
      List.countP_pos_iff.mpr (List.any_eq_true.mp hany)
    omega
  case isFalse hany =>
    have hf : s.any (fun e => e.1 == docId) = false := by
      cases hb : s.any (fun e => e.1 == docId)
      · rfl
      · exact absurd hb hany
    have h0 : s.countP (fun e => e.1 == docId) = 0 :=
      List.countP_eq_zero.mpr (List.any_eq_false.mp hf)
    rw [List.countP_append, h0]
    simp

/-- C4: on a live service whose store holds the article id at most once,
`add_article` succeeds, repeating the identical call is an idempotent full
replacement (the resulting state is unchanged and the repeated call also
reports success), and exactly one document with the derived id is left in
the store. -/
theorem addArticle_upsert_idempotent (st : RAGState)
    (embed : String → List ℚ) (store : Store) (aid : Int)
    (content summary : String) (m : AddMetadata)
    (hm : st.embedding_model = some embed) (hc : st.collection = some store)
    (hcount : store.countP (fun e => e.1 == docIdOf aid) ≤ 1) :
    (addArticle st aid content summary m).1 = true ∧
    (addArticle (addArticle st aid content summary m).2 aid content summary
        m).1 = true ∧
    (addArticle (addArticle st aid content summary m).2 aid content summary
        m).2 = (addArticle st aid content summary m).2 ∧
    ∃ s1, (addArticle st aid content summary m).2.collection = some s1 ∧
      s1.countP (fun e => e.1 == docIdOf aid) = 1 := by
  rcases st with ⟨coll, model⟩
  have h1 : coll = some store := hc
  have h2 : model = some embed := hm
  subst h1
  subst h2
  refine ⟨rfl, rfl, ?_, ?_⟩
  · have hidem := storeUpsert_idem (docIdOf aid)
      { document := documentTextOf content summary m,
        embedding := embed (documentTextOf content summary m),
        metadata := storedMetaOf aid summary m } store
    exact congrArg
      (fun s => ({ collection := some s, embedding_model := some embed }
        : RAGState)) hidem
  · exact ⟨_, rfl, storeUpsert_countP_one _ _ _ hcount⟩

/-- C4 witness: on the concrete live state with an empty store, adding
article 1 twice with identical input succeeds both times, leaves the state
of the first add unchanged, and stores exactly one document under the
derived id. -/
theorem addArticle_upsert_idempotent_witness :
    (addArticle liveState 1 "c" "s" addMetaW).1 = true ∧
    (addArticle (addArticle liveState 1 "c" "s" addMetaW).2 1 "c" "s"
        addMetaW).1 = true ∧
    (addArticle (addArticle liveState 1 "c" "s" addMetaW).2 1 "c" "s"
        addMetaW).2 = (addArticle liveState 1 "c" "s" addMetaW).2 ∧
    ∃ s1, (addArticle liveState 1 "c" "s" addMetaW).2.collection = some s1 ∧
      s1.countP (fun e => e.1 == docIdOf 1) = 1 :=
  addArticle_upsert_idempotent liveState (fun _ => [1]) [] 1 "c" "s" addMetaW
    rfl rfl (by decide)

end ArticleAnalyzer
